import Mathlib

/-
Verification of the domai-app security-monitoring prototype.

The development shallowly embeds:
  * the tcpdump wrapper (`TcpdumpMonitor` in modules/packet_capture/tcpdump_monitor.py,
    shipped inside IMMEDIATE_ACTION_PLAN.md): packet-line parsing, TCP flag parsing,
    tiered explanations, and the start/stop lifecycle;
  * the TypeScript skeletons `NetworkMonitor` and `AnalysisEngine`
    (src/core/monitors/NetworkMonitor.ts) together with the type definitions of
    src/core/types/SecurityEvent.ts and UserProfile.ts.

Python strings are modelled as Lean `String`, Python `int` as `Int`, Python `None`
via `Option`, and each `try/except` block as the explicit `Option`-valued attempt
followed by the handler's fallback value.  String operations are re-implemented
by structural recursion on the character list so that every definition reduces
inside the kernel.
-/

namespace Domai

/-! ### Python string primitives used by the tcpdump wrapper -/

/-- Whitespace as recognised by Python `str.split()` (no argument): ASCII space,
tab, newline, carriage return, vertical tab, form feed. -/
def pyIsSpace (c : Char) : Bool :=
  c.isWhitespace || c = Char.ofNat 11 || c = Char.ofNat 12

/-- Helper for `pySplitWs`: accumulate the current word (reversed) while
scanning. -/
def splitWsAux : List Char → List Char → List (List Char)
  | [], acc => if acc.isEmpty then [] else [acc.reverse]
  | c :: rest, acc =>
    if pyIsSpace c then
      if acc.isEmpty then splitWsAux rest [] else acc.reverse :: splitWsAux rest []
    else splitWsAux rest (c :: acc)

/-- Python `s.split()` with no separator: split on whitespace runs, dropping
empty pieces. -/
def pySplitWs (s : String) : List String :=
  (splitWsAux s.toList []).map String.mk

/-- Python `s.split(sep)` for a single-character separator (keeps empty
pieces; `"".split(sep)` is `[""]`). -/
def splitOnChar (sep : Char) : List Char → List (List Char)
  | [] => [[]]
  | c :: rest =>
    let r := splitOnChar sep rest
    if c = sep then [] :: r
    else
      match r with
      | [] => [[c]]
      | h :: t => (c :: h) :: t

/-- String wrapper of `splitOnChar`. -/
def pySplit1 (s : String) (sep : Char) : List String :=
  (splitOnChar sep s.toList).map String.mk

/-- Nonempty and all ASCII digits: Python `s.isdigit()` on the inputs that
occur here. -/
def isDigits (l : List Char) : Bool :=
  !l.isEmpty && l.all Char.isDigit

/-- Python `s.isdigit()` restricted to ASCII digits. -/
def pyIsDigitStr (s : String) : Bool :=
  isDigits s.toList

/-- Numeric value of a digit list. -/
def digitsVal (l : List Char) : Nat :=
  l.foldl (fun n c => n * 10 + (c.toNat - 48)) 0

/-- Strip leading and trailing whitespace (Python `str.strip()`). -/
def pyStrip (l : List Char) : List Char :=
  ((l.dropWhile pyIsSpace).reverse.dropWhile pyIsSpace).reverse

/-- Python `int(s)` on a character list: optional surrounding whitespace,
optional sign, decimal digits; anything else raises `ValueError`, modelled as
`none`.  (Underscore digit separators accepted by CPython are not modelled; no
input considered here contains them.) -/
def pyIntL (l : List Char) : Option Int :=
  match pyStrip l with
  | '-' :: rest => if isDigits rest then some (-(digitsVal rest : Int)) else none
  | '+' :: rest => if isDigits rest then some (digitsVal rest : Int) else none
  | t => if isDigits t then some (digitsVal t : Int) else none

/-- Python `int(s)`. -/
def pyInt (s : String) : Option Int :=
  pyIntL s.toList

/-- Does the list start with the given pattern? -/
def charsStartWith : List Char → List Char → Bool
  | _, [] => true
  | [], _ :: _ => false
  | a :: as, b :: bs => a = b && charsStartWith as bs

/-- Does the character list `s` contain `sub` as a contiguous run? -/
def charsContain (s sub : List Char) : Bool :=
  match s with
  | [] => charsStartWith [] sub
  | _ :: rest => charsStartWith s sub || charsContain rest sub

/-- Python substring membership `sub in s`. -/
def containsSub (s sub : String) : Bool :=
  charsContain s.toList sub.toList

/-- Text after the first occurrence of (nonempty) `sep`, or `none` when `sep`
does not occur. -/
def afterFirst (sep : List Char) : List Char → Option (List Char)
  | [] => none
  | c :: rest =>
    if charsStartWith (c :: rest) sep then some ((c :: rest).drop sep.length)
    else afterFirst sep rest

/-- Text before the first occurrence of (nonempty) `sep`, or `none` when `sep`
does not occur. -/
def beforeFirst (sep : List Char) : List Char → Option (List Char)
  | [] => none
  | c :: rest =>
    if charsStartWith (c :: rest) sep then some []
    else (beforeFirst sep rest).map (fun u => c :: u)

/-- Join a list of strings with a separator (`sep.join(parts)`). -/
def joinSep (sep : String) : List String → String
  | [] => ""
  | [x] => x
  | x :: xs => x ++ sep ++ joinSep sep xs

/-! ### datetime.strptime with format "%Y-%m-%d %H:%M:%S.%f" -/

/-- Result of a successful `datetime.datetime.strptime` call (also the type of
`datetime.datetime.now()` used by the parse fallback). -/
structure DateTime where
  year : Nat
  month : Nat
  day : Nat
  hour : Nat
  minute : Nat
  second : Nat
  microsecond : Nat
deriving DecidableEq, Repr

def isLeapYear (y : Nat) : Bool :=
  y % 4 = 0 && (y % 100 ≠ 0 || y % 400 = 0)

def daysInMonth (y m : Nat) : Nat :=
  if m = 1 || m = 3 || m = 5 || m = 7 || m = 8 || m = 10 || m = 12 then 31
  else if m = 4 || m = 6 || m = 9 || m = 11 then 30
  else if isLeapYear y then 29
  else 28

/-- The "%Y-%m-%d" part: four-digit year, 1-2 digit month in 1..12,
1-2 digit day accepted by the datetime constructor (1..days-in-month). -/
def parseDateL (s : List Char) : Option (Nat × Nat × Nat) :=
  match splitOnChar '-' s with
  | [ys, ms, ds] =>
    if ys.length = 4 ∧ isDigits ys
        ∧ isDigits ms ∧ ms.length ≤ 2
        ∧ isDigits ds ∧ ds.length ≤ 2 then
      let y := digitsVal ys
      let mo := digitsVal ms
      let d := digitsVal ds
      if 1 ≤ mo ∧ mo ≤ 12 ∧ 1 ≤ d ∧ d ≤ daysInMonth y mo then
        some (y, mo, d)
      else none
    else none
  | _ => none

/-- The "%H:%M:%S.%f" part: 1-2 digit hour 0..23, minute 0..59, second 0..59
(the strptime regex admits leap seconds but the datetime constructor rejects
them), and 1-6 fractional digits scaled to microseconds. -/
def parseTimeL (s : List Char) : Option (Nat × Nat × Nat × Nat) :=
  match splitOnChar ':' s with
  | [hs, ms, sf] =>
    match splitOnChar '.' sf with
    | [ss, fs] =>
      if isDigits hs ∧ hs.length ≤ 2
          ∧ isDigits ms ∧ ms.length ≤ 2
          ∧ isDigits ss ∧ ss.length ≤ 2
          ∧ isDigits fs ∧ fs.length ≤ 6 then
        let h := digitsVal hs
        let mi := digitsVal ms
        let sec := digitsVal ss
        if h ≤ 23 ∧ mi ≤ 59 ∧ sec ≤ 59 then
          some (h, mi, sec, digitsVal fs * 10 ^ (6 - fs.length))
        else none
      else none
    | _ => none
  | _ => none

/-- `datetime.datetime.strptime(s, "%Y-%m-%d %H:%M:%S.%f")`, `none` on
`ValueError`.  The whole string must be consumed. -/
def pyStrptime (s : String) : Option DateTime :=
  match splitOnChar ' ' s.toList with
  | [d, t] => do
    let (y, mo, da) ← parseDateL d
    let (h, mi, sec, us) ← parseTimeL t
    some { year := y, month := mo, day := da,
           hour := h, minute := mi, second := sec, microsecond := us }
  | _ => none

/-! ### TcpdumpMonitor: packet data and line parsing
(modules/packet_capture/tcpdump_monitor.py, embedded in IMMEDIATE_ACTION_PLAN.md) -/

/-- ExplanationTier enum of the tcpdump wrapper. -/
inductive ExplanationTier where
  | RAW
  | NOVICE
  | APPRENTICE
  | GUARDIAN
  | SENTINEL
deriving DecidableEq, Repr

/-- The TCP flag dictionary built by `_parse_tcp_flags`, with its fixed keys
SYN, ACK, PSH, RST, FIN, URG. -/
structure TcpFlags where
  SYN : Bool
  ACK : Bool
  PSH : Bool
  RST : Bool
  FIN : Bool
  URG : Bool
deriving DecidableEq, Repr

/-- The `PacketData` dataclass.  `metadata`, `threats` and `context` default to
`None` (the fallback constructor call leaves them unset); the success path
passes an empty dict / list / dict. -/
structure PacketData where
  timestamp : DateTime
  raw_output : String
  protocol : String
  src_ip : String
  dst_ip : String
  src_port : Option Int
  dst_port : Option Int
  length : Option Int
  flags : Option TcpFlags
  metadata : Option (List (String × String)) := none
  threats : Option (List (List (String × String))) := none
  context : Option (List (String × String)) := none
deriving DecidableEq, Repr

/-- Python `raw.split("Flags [")[1].split("]")[0]`: the text between the end of
the first "Flags [" and the following "Flags [" or "]" (whichever the two
splits cut at first), assuming "Flags [" occurs. -/
def flagSectionOf (l : List Char) : List Char :=
  match afterFirst ("Flags [".toList) l with
  | none => []
  | some t =>
    let t1 := match beforeFirst ("Flags [".toList) t with
              | some u => u
              | none => t
    match beforeFirst ("]".toList) t1 with
    | some u => u
    | none => t1

/-- `_parse_tcp_flags`: if "Flags [" occurs in the line, take the text between
the first "Flags [" and the next "]" and mark each flag whose NAME (e.g. the
three letters "SYN") occurs as a substring of that section; otherwise all
flags stay False.  The body cannot raise, so its try/except is inert. -/
def parseTcpFlags (raw_output : String) : TcpFlags :=
  if containsSub raw_output "Flags [" then
    let flagSection := flagSectionOf raw_output.toList
    { SYN := charsContain flagSection ("SYN".toList)
      ACK := charsContain flagSection ("ACK".toList)
      PSH := charsContain flagSection ("PSH".toList)
      RST := charsContain flagSection ("RST".toList)
      FIN := charsContain flagSection ("FIN".toList)
      URG := charsContain flagSection ("URG".toList) }
  else
    { SYN := false, ACK := false, PSH := false,
      RST := false, FIN := false, URG := false }

/-- The fields computed by the try-body of `_parse_packet` before the
`PacketData` constructor call (everything except `raw_output`, which is the
input itself). -/
structure ParsedFields where
  timestamp : DateTime
  protocol : String
  src_ip : String
  dst_ip : String
  src_port : Int
  dst_port : Int
  length : Option Int
  flags : Option TcpFlags
deriving DecidableEq, Repr

/-- Try-body of `_parse_packet`: `none` models any IndexError / ValueError
raised while splitting the line, parsing the timestamp, or converting the
ports, all of which the except-handler catches. -/
def parsePacketFields (raw_output : String) : Option ParsedFields := do
  let parts := pySplitWs raw_output
  let p0 ← parts.get? 0
  let p1 ← parts.get? 1
  let ts ← pyStrptime (p0 ++ " " ++ p1)
  let protocol ← parts.get? 2
  let p3 ← parts.get? 3
  let p5 ← parts.get? 5
  let src := pySplit1 p3 '.'
  let dst := pySplit1 p5 '.'
  let srcLast ← src.getLast?
  let dstLast ← dst.getLast?
  let sp ← pyInt srcLast
  let dp ← pyInt dstLast
  let pLast ← parts.getLast?
  some { timestamp := ts
         protocol := protocol
         src_ip := joinSep "." src.dropLast
         dst_ip := joinSep "." dst.dropLast
         src_port := sp
         dst_port := dp
         length := if pyIsDigitStr pLast then pyInt pLast else none
         flags := if protocol = "TCP" then some (parseTcpFlags raw_output) else none }

/-- The record returned by the except-handler of `_parse_packet`;
`now` models `datetime.datetime.now()`. -/
def fallbackPacket (now : DateTime) (raw_output : String) : PacketData :=
  { timestamp := now, raw_output := raw_output, protocol := "UNKNOWN",
    src_ip := "", dst_ip := "", src_port := none, dst_port := none,
    length := none, flags := none }

/-- `_parse_packet`: build the structured record on success, the "UNKNOWN"
fallback on any exception. -/
def parsePacket (now : DateTime) (raw_output : String) : PacketData :=
  match parsePacketFields raw_output with
  | some f =>
    { timestamp := f.timestamp, raw_output := raw_output, protocol := f.protocol,
      src_ip := f.src_ip, dst_ip := f.dst_ip,
      src_port := some f.src_port, dst_port := some f.dst_port,
      length := f.length, flags := f.flags,
      metadata := some [], threats := some [], context := some [] }
  | none => fallbackPacket now raw_output

/-! ### TcpdumpMonitor: tiered explanations -/

/-- Python `str(x)` for an optional int field interpolated by an f-string:
`None` prints as "None". -/
def pyShowOptInt : Option Int → String
  | none => "None"
  | some n => toString n

/-- The flag dictionary in its fixed key order, as iterated by
`packet.flags.items()`. -/
def flagsItems (f : TcpFlags) : List (String × Bool) :=
  [("SYN", f.SYN), ("ACK", f.ACK), ("PSH", f.PSH),
   ("RST", f.RST), ("FIN", f.FIN), ("URG", f.URG)]

/-- `_get_novice_explanation`: port-443 / port-80 / generic, keyed on the
DESTINATION port. -/
def noviceExplanation (packet : PacketData) : String :=
  if packet.dst_port = some 443 then "Secure web connection to " ++ packet.dst_ip
  else if packet.dst_port = some 80 then "Web connection to " ++ packet.dst_ip
  else "Network connection to " ++ packet.dst_ip

/-- `_get_apprentice_explanation`: protocol, endpoints, and the set flags (the
flag dict is always truthy when present, so only `None` skips the block). -/
def apprenticeExplanation (packet : PacketData) : String :=
  let explanation :=
    packet.protocol ++ " connection from " ++ packet.src_ip ++ ":"
      ++ pyShowOptInt packet.src_port ++ " to " ++ packet.dst_ip ++ ":"
      ++ pyShowOptInt packet.dst_port
  match packet.flags with
  | none => explanation
  | some f =>
    let flagsStr := joinSep ", " (((flagsItems f).filter (fun x => x.2)).map (fun x => x.1))
    if flagsStr = "" then explanation
    else explanation ++ " (Flags: " ++ flagsStr ++ ")"

/-- `_get_guardian_explanation`: raw line plus the apprentice text. -/
def guardianExplanation (packet : PacketData) : String :=
  packet.raw_output ++ "\n" ++ apprenticeExplanation packet

/-- `get_explanation`: dispatch on the tier; the final `return
packet.raw_output` covers SENTINEL, and the except-handler is unreachable since
every branch is total. -/
def getExplanation (packet : PacketData) (tier : ExplanationTier) : String :=
  match tier with
  | .RAW => packet.raw_output
  | .NOVICE => noviceExplanation packet
  | .APPRENTICE => apprenticeExplanation packet
  | .GUARDIAN => guardianExplanation packet
  | .SENTINEL => packet.raw_output

/-! ### src/core/types/SecurityEvent.ts -/

inductive SecurityEventSource where
  | TCPDUMP
  | SYSTEM_LOG
  | NETWORK_MONITOR
  | PROCESS_MONITOR
  | FILE_SYSTEM
deriving DecidableEq, Repr

inductive SecurityEventType where
  | NETWORK_CONNECTION
  | FILE_ACCESS
  | PROCESS_LAUNCH
  | SYSTEM_CHANGE
  | PERMISSION_CHANGE
deriving DecidableEq, Repr

inductive SecurityEventSeverity where
  | INFO
  | LOW
  | MEDIUM
  | HIGH
  | CRITICAL
deriving DecidableEq, Repr

/-- The SecurityEvent interface; `Date` is modelled as epoch milliseconds and
the free-form metadata record as an association list. -/
structure SecurityEvent where
  id : String
  timestamp : Nat
  source : SecurityEventSource
  type : SecurityEventType
  severity : SecurityEventSeverity
  rawData : String
  metadata : List (String × String)
deriving DecidableEq, Repr

/-! ### src/core/types/UserProfile.ts -/

inductive ExpertiseLevel where
  | BEGINNER
  | INTERMEDIATE
  | ADVANCED
  | EXPERT
deriving DecidableEq, Repr

inductive NotificationChannel where
  | IN_APP
  | SYSTEM
  | EMAIL
deriving DecidableEq, Repr

structure NotificationSettings where
  enabled : Bool
  minSeverity : SecurityEventSeverity
  channels : List NotificationChannel
deriving DecidableEq, Repr

structure PrivacySettings where
  dataCollection : Bool
  analysisStorage : Bool
  cloudSync : Bool
deriving DecidableEq, Repr

structure Achievement where
  id : String
  name : String
  description : String
  dateEarned : Nat
deriving DecidableEq, Repr

structure UserPreferences where
  technicalDepth : Int
  automationLevel : Int
  notificationSettings : NotificationSettings
  privacySettings : PrivacySettings
deriving DecidableEq, Repr

structure LearningProgress where
  completedTopics : List String
  skillLevels : List (String × Int)
  achievements : List Achievement
  lastAssessment : Nat
deriving DecidableEq, Repr

structure UserProfile where
  id : String
  expertiseLevel : ExpertiseLevel
  preferences : UserPreferences
  learningProgress : LearningProgress
deriving DecidableEq, Repr

/-! ### NetworkMonitor (src/core/monitors/NetworkMonitor.ts) -/

/-- `determineSeverity`: the TODO stub returns INFO for every input string. -/
def determineSeverity (_data : String) : SecurityEventSeverity :=
  SecurityEventSeverity.INFO

/-- `parseNetworkData`: the TODO stub builds a fixed-shape event.  The
generated uuid (`crypto.randomUUID()`) and clock reading (`new Date()`) are
passed in as parameters `id` and `timestamp`. -/
def parseNetworkData (id : String) (timestamp : Nat) (data : String) : SecurityEvent :=
  { id := id
    timestamp := timestamp
    source := SecurityEventSource.TCPDUMP
    type := SecurityEventType.NETWORK_CONNECTION
    severity := determineSeverity data
    rawData := data
    metadata := [] }

/-- Error taxonomy.  Modelled from the spec: §7 names `ToolNotFound`,
`PermissionDenied`, `AlreadyRunning`, `ProcessCrashed`; no shipped code
constructs any of them. -/
inductive MonitorError where
  | alreadyRunning
  | toolNotFound
  | permissionDenied
  | processCrashed
  | generic
deriving DecidableEq, Repr

/-- Observable outcome of `NetworkMonitor.start`: the guard's bare `return`,
normal completion, or a thrown error. -/
inductive NmStartResult where
  | earlyReturn
  | ok
  | err (e : MonitorError)
deriving DecidableEq, Repr

/-- `NetworkMonitor.start`: `if (this.isRunning) return;` then the try-block
(whose body, with spawning unimplemented, only sets the flag and cannot
throw). -/
def nmStart (isRunning : Bool) : NmStartResult × Bool :=
  if isRunning then (NmStartResult.earlyReturn, isRunning)
  else (NmStartResult.ok, true)

/-- `NetworkMonitor.stop`: `if (!this.isRunning) return;` then clear the
flag. -/
def nmStop (isRunning : Bool) : Bool :=
  if !isRunning then isRunning
  else false

/-! ### AnalysisEngine (second class of src/core/monitors/NetworkMonitor.ts) -/

/-- AnalysisResult.  Modelled from the spec: the imported
src/core/types/AnalysisResult.ts is not in the provided source; the fields are
those of the object literal returned by `analyzeSecurityEvent`, typed per
§3 of the spec (learning opportunities as free-form strings). -/
structure AnalysisResult where
  rawEvent : SecurityEvent
  naturalLanguageExplanation : String
  technicalDetails : String
  complexityLevel : ExpertiseLevel
  relatedEvents : List SecurityEvent
  learningOpportunities : List String
deriving DecidableEq, Repr

def MAX_CONTEXT_EVENTS : Nat := 100

/-- `updateContextWindow`: push, then shift once when over capacity. -/
def updateContextWindow (contextWindow : List SecurityEvent) (event : SecurityEvent) :
    List SecurityEvent :=
  let w := contextWindow ++ [event]
  if MAX_CONTEXT_EVENTS < w.length then w.tail else w

/-- `generateAnalysis`: the TODO stub returns empty explanation and technical
strings. -/
def generateAnalysis (_event : SecurityEvent) : String × String :=
  ("", "")

/-- `adaptComplexityLevel`: the TODO stub returns the profile's expertise
level, ignoring the analysis. -/
def adaptComplexityLevel (userProfile : UserProfile) (_analysis : String × String) :
    ExpertiseLevel :=
  userProfile.expertiseLevel

/-- `findRelatedEvents`: the TODO stub returns the empty list whatever the
context window holds. -/
def findRelatedEvents (_contextWindow : List SecurityEvent) (_event : SecurityEvent) :
    List SecurityEvent :=
  []

/-- `identifyLearningMoments`: the TODO stub returns the empty list. -/
def identifyLearningMoments (_event : SecurityEvent) : List String :=
  []

/-- `analyzeSecurityEvent`: update the window, then assemble the result from
the stubs; returns the result together with the engine's new context window. -/
def analyzeSecurityEvent (userProfile : UserProfile) (contextWindow : List SecurityEvent)
    (event : SecurityEvent) : AnalysisResult × List SecurityEvent :=
  let w := updateContextWindow contextWindow event
  let analysis := generateAnalysis event
  let technicalDepth := adaptComplexityLevel userProfile analysis
  ({ rawEvent := event
     naturalLanguageExplanation := analysis.1
     technicalDetails := analysis.2
     complexityLevel := technicalDepth
     relatedEvents := findRelatedEvents w event
     learningOpportunities := identifyLearningMoments event }, w)

/-! ### TcpdumpMonitor: start/stop lifecycle -/

/-- Permission manager.  Modelled from the spec: `permission_manager.py` is not
in the provided source; §6 gives its interface (`checkPermission(capability) ->
bool`, `requestPermission(capability) -> bool`, `release(capability)`) and §5
says the grant is held exclusively and released on stop.  `held` is the state
of the single "packet_capture" grant, `grantable` says whether a request would
be granted, `wrapper` is what `get_command_wrapper("tcpdump")` returns. -/
structure PermissionManager where
  held : Bool
  grantable : Bool
  wrapper : Option String
deriving DecidableEq, Repr

/-- Environment of one `TcpdumpMonitor` run: which of the three probed
binary paths exist, whether `create_subprocess_exec` succeeds, and whether
`process.terminate()` raises an unexpected (non-`TimeoutError`) exception
during `stop` (a timeout alone is handled inline by `kill` and changes
nothing observable here). -/
structure TdEnv where
  usrSbin : Bool
  usrLocalSbin : Bool
  homebrew : Bool
  spawnOk : Bool
  terminateError : Bool
deriving DecidableEq, Repr

/-- Mutable fields of `TcpdumpMonitor`: `running`, the capture process
(present or not), the interface/filter recorded by `start`, and the
permission manager it owns. -/
structure TdState where
  running : Bool
  process : Option Unit
  current_interface : Option String
  current_filter : Option String
  pm : PermissionManager
deriving DecidableEq, Repr

/-- `_find_tcpdump`: first existing path among /usr/sbin, /usr/local/sbin,
/opt/homebrew/bin. -/
def findTcpdump (env : TdEnv) : Option String :=
  if env.usrSbin then some "/usr/sbin/tcpdump"
  else if env.usrLocalSbin then some "/usr/local/sbin/tcpdump"
  else if env.homebrew then some "/opt/homebrew/bin/tcpdump"
  else none

/-- `initialize`: fail (return False) when the binary is missing; otherwise
check the packet_capture permission, requesting it when not yet held; fail
when the request is denied.  Every failure is the same bare `False`. -/
def tdInit (env : TdEnv) (st : TdState) : Bool × TdState :=
  match findTcpdump env with
  | none => (false, st)
  | some _ =>
    if st.pm.held then (true, st)
    else if st.pm.grantable then (true, { st with pm := { st.pm with held := true } })
    else (false, st)

/-- `_build_capture_command`: tcpdump path, optional wrapper in front, the
fixed argument set, and `-vv` plus the filter when one is given; `none` only
when the binary vanished. -/
def buildCaptureCommand (env : TdEnv) (st : TdState)
    (iface packet_filter : String) : Option (List String) :=
  match findTcpdump env with
  | none => none
  | some path =>
    let cmd := [path]
    let cmd := match st.pm.wrapper with
               | some w => w :: cmd
               | none => cmd
    let cmd := cmd ++ ["-i", iface, "-tttt", "-l", "-n"]
    some (if packet_filter = "" then cmd else cmd ++ ["-vv", packet_filter])

/-- `start`: `if self.running: return True`; otherwise initialize, record the
interface and filter, build the command and spawn.  Every failure returns the
same bare `False`; success sets `running` and the process handle. -/
def tdStart (env : TdEnv) (st : TdState) (iface packet_filter : String) :
    Bool × TdState :=
  if st.running then (true, st)
  else
    match tdInit env st with
    | (false, st1) => (false, st1)
    | (true, st1) =>
      let st2 := { st1 with current_interface := some iface, current_filter := some packet_filter }
      match buildCaptureCommand env st2 iface packet_filter with
      | none => (false, st2)
      | some _cmd =>
        if env.spawnOk then
          (true, { st2 with running := true, process := some () })
        else (false, st2)

/-- `stop`: `if not self.running: return`; otherwise clear `running`, terminate
the process (a `TimeoutError` is killed inline; any other exception propagates
to the outer handler, which only logs — skipping the permission release), then
release the packet_capture grant. -/
def tdStop (env : TdEnv) (st : TdState) : TdState :=
  if !st.running then st
  else
    let st1 := { st with running := false }
    match st1.process with
    | some _ =>
      if env.terminateError then { st1 with process := none }
      else { st1 with process := none, pm := { st1.pm with held := false } }
    | none => { st1 with pm := { st1.pm with held := false } }

/-- One `start`/`stop` cycle with default arguments, as in the rapid-cycling
scenario. -/
def tdCycle (env : TdEnv) (st : TdState) : TdState :=
  tdStop env (tdStart env st "any" "").2

/-! ### Concrete fixtures -/

/-- A concrete clock reading used for the parse fallback. -/
def dt0 : DateTime :=
  { year := 2024, month := 1, day := 1, hour := 0, minute := 0, second := 0, microsecond := 0 }

/-- The synthetic capture line of the spec's §8 scenario. -/
def c3Line : String :=
  "2024-01-01 10:00:00.000000 TCP 10.0.0.5.443 > 10.0.0.9.51000: Flags [S]"

/-- A concrete well-formed packet record. -/
def pkt0 : PacketData :=
  { timestamp := dt0, raw_output := "raw line", protocol := "TCP",
    src_ip := "10.0.0.5", dst_ip := "10.0.0.9", src_port := some 443,
    dst_port := some 51000, length := none,
    flags := some { SYN := true, ACK := false, PSH := false,
                    RST := false, FIN := false, URG := false } }

/-- A degraded record with unknown protocol and missing ports. -/
def pktUnknown : PacketData :=
  { fallbackPacket dt0 "???" with dst_ip := "10.0.0.9" }

/-- Two concrete security events. -/
def ev0 : SecurityEvent :=
  { id := "e0", timestamp := 0, source := SecurityEventSource.TCPDUMP,
    type := SecurityEventType.NETWORK_CONNECTION,
    severity := SecurityEventSeverity.INFO, rawData := "a", metadata := [] }

def ev1 : SecurityEvent :=
  { id := "e1", timestamp := 1, source := SecurityEventSource.TCPDUMP,
    type := SecurityEventType.NETWORK_CONNECTION,
    severity := SecurityEventSeverity.INFO, rawData := "b", metadata := [] }

/-- Fresh monitor state: not running, no process, grant not held,
permission grantable, no command wrapper. -/
def st0 : TdState :=
  { running := false, process := none, current_interface := none,
    current_filter := none,
    pm := { held := false, grantable := true, wrapper := none } }

/-- Fresh monitor state whose permission request would be denied. -/
def stNoPerm : TdState :=
  { running := false, process := none, current_interface := none,
    current_filter := none,
    pm := { held := false, grantable := false, wrapper := none } }

/-- State of a capture in progress holding the privilege grant. -/
def stRunning : TdState :=
  { running := true, process := some (), current_interface := some "any",
    current_filter := some "",
    pm := { held := true, grantable := true, wrapper := none } }

/-- Healthy environment: binary present, spawn succeeds, termination clean. -/
def envGood : TdEnv :=
  { usrSbin := true, usrLocalSbin := false, homebrew := false,
    spawnOk := true, terminateError := false }

/-- No tcpdump binary on any probed path. -/
def envNoBinary : TdEnv :=
  { usrSbin := false, usrLocalSbin := false, homebrew := false,
    spawnOk := true, terminateError := false }

/-- Environment whose `process.terminate()` raises a non-timeout error. -/
def envTermErr : TdEnv :=
  { usrSbin := true, usrLocalSbin := false, homebrew := false,
    spawnOk := true, terminateError := true }

/-! ### Helper lemmas -/

/-- One insertion keeps the context window within capacity. -/
theorem updateContextWindow_length_le (w : List SecurityEvent) (e : SecurityEvent)
    (h : w.length ≤ MAX_CONTEXT_EVENTS) :
    (updateContextWindow w e).length ≤ MAX_CONTEXT_EVENTS := by
  simp only [updateContextWindow]
  split <;> simp_all

/-- A clean (not running, no process, no grant) state stays clean across one
error-free start/stop cycle. -/
theorem tdCycle_clean (env : TdEnv) (hte : env.terminateError = false)
    (hsp : env.spawnOk = true) (st : TdState) (h1 : st.running = false)
    (h2 : st.process = none) (h3 : st.pm.held = false) :
    (tdCycle env st).running = false ∧ (tdCycle env st).process = none ∧
      (tdCycle env st).pm.held = false := by
  unfold tdCycle
  cases hf : findTcpdump env with
  | none =>
    simp [tdStart, tdInit, tdStop, hf, h1, h2, h3]
  | some path =>
    cases hg : st.pm.grantable with
    | false => simp [tdStart, tdInit, tdStop, hf, h1, h2, h3, hg]
    | true => simp [tdStart, tdInit, buildCaptureCommand, tdStop, hf, h1, h3, hg, hsp, hte]

/-! ### Claim theorems -/

/-- C1: for every input line, `_parse_packet` never throws: it preserves the
raw text verbatim in every case, returns the "UNKNOWN"-protocol fallback
record exactly on the malformed lines (those whose try-body raises), and the
structured record built from the parsed fields on well-formed lines. -/
theorem c1_parse_never_throws_preserves_raw (now : DateTime) (raw : String) :
    (parsePacket now raw).raw_output = raw ∧
    (parsePacketFields raw = none →
      parsePacket now raw = fallbackPacket now raw ∧
      (parsePacket now raw).protocol = "UNKNOWN") ∧
    (∀ f, parsePacketFields raw = some f →
      parsePacket now raw =
        { timestamp := f.timestamp, raw_output := raw, protocol := f.protocol,
          src_ip := f.src_ip, dst_ip := f.dst_ip,
          src_port := some f.src_port, dst_port := some f.dst_port,
          length := f.length, flags := f.flags,
          metadata := some [], threats := some [], context := some [] }) := by
  cases h : parsePacketFields raw <;>
    simp [parsePacket, fallbackPacket, h]

/-- C1 witness: a concrete malformed line is preserved verbatim and marked
"UNKNOWN". -/
theorem c1_witness :
    parsePacketFields "not a packet line" = none ∧
    (parsePacket dt0 "not a packet line").raw_output = "not a packet line" ∧
    (parsePacket dt0 "not a packet line").protocol = "UNKNOWN" :=
  ⟨by decide,
   (c1_parse_never_throws_preserves_raw dt0 "not a packet line").1,
   ((c1_parse_never_throws_preserves_raw dt0 "not a packet line").2.1 (by decide)).2⟩

/-- C2: the context window of `AnalysisEngine` never exceeds 100 events over
any sequence of `analyzeSecurityEvent` calls; inserting into a full window
evicts exactly the oldest event; and no event — in particular not the evicted
oldest one — is ever retrievable through `findRelatedEvents`, which returns
the empty list. -/
theorem c2_context_window_bounded_fifo :
    (∀ (profile : UserProfile) (evs : List SecurityEvent),
      (evs.foldl (fun w e => (analyzeSecurityEvent profile w e).2) []).length
        ≤ MAX_CONTEXT_EVENTS) ∧
    (∀ (w : List SecurityEvent) (e : SecurityEvent),
      w.length = MAX_CONTEXT_EVENTS → updateContextWindow w e = w.tail ++ [e]) ∧
    (∀ (w : List SecurityEvent) (q x : SecurityEvent), x ∉ findRelatedEvents w q) := by
  refine ⟨fun profile evs => ?_, fun w e hw => ?_, fun w q x => by simp [findRelatedEvents]⟩
  · have key : ∀ (evs : List SecurityEvent) (w : List SecurityEvent),
        w.length ≤ MAX_CONTEXT_EVENTS →
        (evs.foldl (fun w e => (analyzeSecurityEvent profile w e).2) w).length
          ≤ MAX_CONTEXT_EVENTS := by
      intro evs
      induction evs with
      | nil => intro w h; simpa using h
      | cons e rest ih =>
        intro w h
        exact ih _ (updateContextWindow_length_le w e h)
    exact key evs [] (by simp [MAX_CONTEXT_EVENTS])
  · unfold updateContextWindow
    have hlt : MAX_CONTEXT_EVENTS < (w ++ [e]).length := by
      simp [hw]
    rw [if_pos hlt]
    cases w with
    | nil => simp [MAX_CONTEXT_EVENTS] at hw
    | cons a as => rfl

/-- C2 witness: inserting into a full window of 100 events drops the head. -/
theorem c2_witness :
    updateContextWindow (List.replicate MAX_CONTEXT_EVENTS ev0) ev1
      = (List.replicate MAX_CONTEXT_EVENTS ev0).tail ++ [ev1] :=
  c2_context_window_bounded_fifo.2.1 _ ev1 (by simp)

/-- C3: evaluating the code on the spec's synthetic capture line.  The
destination token "10.0.0.9.51000:" keeps its trailing colon, so
`int("51000:")` raises and `_parse_packet` returns the fallback record:
protocol "UNKNOWN" (not TCP), no destination port (not 51000) and no flags
(not SYN=true); independently, `_parse_tcp_flags` tests for the literal
substring "SYN" inside the section "S", which is false.  The novice rendering
of the produced event is the generic one. -/
theorem c3_scenario_line_parse :
    pyInt "51000:" = none ∧
    parsePacketFields c3Line = none ∧
    parsePacket dt0 c3Line = fallbackPacket dt0 c3Line ∧
    (parsePacket dt0 c3Line).protocol = "UNKNOWN" ∧
    (parsePacket dt0 c3Line).dst_port = none ∧
    (parsePacket dt0 c3Line).flags = none ∧
    (parseTcpFlags c3Line).SYN = false ∧
    getExplanation (parsePacket dt0 c3Line) ExplanationTier.NOVICE
      = "Network connection to " := by
  decide

/-- C4 counterexample: the second `start` does not fail with an AlreadyRunning
error — `NetworkMonitor.start` takes the guard's bare `return` and
`TcpdumpMonitor.start` returns True — and leaves the state unchanged. -/
theorem c4_second_start_silently_returns_cx :
    (nmStart (nmStart false).2).1 = NmStartResult.earlyReturn ∧
    (nmStart (nmStart false).2).1 ≠ NmStartResult.err MonitorError.alreadyRunning ∧
    (nmStart (nmStart false).2).2 = true ∧
    (tdStart envGood (tdStart envGood st0 "any" "").2 "any" "").1 = true ∧
    (tdStart envGood (tdStart envGood st0 "any" "").2 "any" "").2
      = (tdStart envGood st0 "any" "").2 := by
  decide

/-- C4 amended: calling `start` a second time without an intervening `stop`
silently returns (NetworkMonitor) or reports success (TcpdumpMonitor returns
True), leaving the state unchanged; no AlreadyRunning error is raised. -/
theorem c4_amended_second_start_no_error :
    (∀ b : Bool, b = true → nmStart b = (NmStartResult.earlyReturn, b)) ∧
    (∀ (env : TdEnv) (st : TdState) (i f : String),
      st.running = true → tdStart env st i f = (true, st)) := by
  constructor
  · intro b hb
    subst hb
    rfl
  · intro env st i f h
    simp [tdStart, h]

/-- C4 amended witness at concrete running states. -/
theorem c4_amended_witness :
    nmStart true = (NmStartResult.earlyReturn, true) ∧
    tdStart envGood stRunning "any" "" = (true, stRunning) :=
  ⟨c4_amended_second_start_no_error.1 true rfl,
   c4_amended_second_start_no_error.2 envGood stRunning "any" "" rfl⟩

/-- C5 counterexample: with the binary absent, `start` returns the same bare
False that a permission denial returns — nothing in the result distinguishes
ToolNotFound from PermissionDenied — though the state does stay not-running. -/
theorem c5_missing_binary_indistinguishable_cx :
    (tdStart envNoBinary st0 "any" "").1 = false ∧
    (tdStart envNoBinary st0 "any" "").2.running = false ∧
    (tdStart envGood stNoPerm "any" "").1 = false ∧
    (tdStart envNoBinary st0 "any" "").1 = (tdStart envGood stNoPerm "any" "").1 := by
  decide

/-- C5 amended: when the binary cannot be located, `start` fails by returning
the plain boolean False with the state unchanged (so still IDLE / not
running); the specific reason is only logged, not surfaced, and the caller
cannot distinguish it from a permission failure. -/
theorem c5_amended_missing_binary_plain_false (env : TdEnv) (st : TdState)
    (i f : String) (hrun : st.running = false) (hbin : findTcpdump env = none) :
    tdStart env st i f = (false, st) := by
  simp [tdStart, tdInit, hrun, hbin]

/-- C5 amended witness at the concrete binary-less environment. -/
theorem c5_amended_witness :
    tdStart envNoBinary st0 "any" "" = (false, st0) ∧ st0.running = false :=
  ⟨c5_amended_missing_binary_plain_false envNoBinary st0 "any" "" rfl rfl, rfl⟩

/-- C6 counterexample: when `process.terminate()` raises a non-timeout error,
`stop` still clears `running` but the outer except-handler swallows the error
before `release_permission` runs, so the privilege grant stays held. -/
theorem c6_terminate_error_leaks_grant_cx :
    stRunning.pm.held = true ∧
    (tdStop envTermErr stRunning).running = false ∧
    (tdStop envTermErr stRunning).pm.held = true := by
  decide

/-- C6 amended: `stop` always leaves the monitor not running (both monitors);
it releases the held privilege grant whenever termination does not raise an
unexpected (non-timeout) error; and error-free start/stop cycles from a clean
state leave no process and no held grant — but an unexpected termination
error skips the release. -/
theorem c6_amended_stop_stopped_release :
    (∀ (env : TdEnv) (st : TdState), (tdStop env st).running = false) ∧
    (∀ (env : TdEnv) (st : TdState),
      st.running = true → env.terminateError = false →
      (tdStop env st).pm.held = false) ∧
    (∀ b : Bool, nmStop b = false) ∧
    (∀ (env : TdEnv) (n : Nat),
      env.terminateError = false → env.spawnOk = true →
      ((tdCycle env)^[n] st0).running = false ∧
        ((tdCycle env)^[n] st0).process = none ∧
        ((tdCycle env)^[n] st0).pm.held = false) := by
  refine ⟨fun env st => ?_, fun env st hr hte => ?_, fun b => ?_, fun env n hte hsp => ?_⟩
  · cases hr : st.running with
    | false => simp [tdStop, hr]
    | true =>
      cases hp : st.process <;> cases hte : env.terminateError <;>
        simp [tdStop, hr, hp, hte]
  · cases hp : st.process <;> simp [tdStop, hr, hp, hte]
  · cases b <;> rfl
  · induction n with
    | zero => exact ⟨rfl, rfl, rfl⟩
    | succ n ih =>
      rw [Function.iterate_succ_apply']
      exact tdCycle_clean env hte hsp _ ih.1 ih.2.1 ih.2.2

/-- C6 amended witness: three rapid clean cycles leave no process and no held
grant, and a clean stop of a running capture releases the grant. -/
theorem c6_amended_witness :
    ((tdCycle envGood)^[3] st0).process = none ∧
    ((tdCycle envGood)^[3] st0).pm.held = false ∧
    (tdStop envGood stRunning).pm.held = false :=
  ⟨(c6_amended_stop_stopped_release.2.2.2 envGood 3 rfl rfl).2.1,
   (c6_amended_stop_stopped_release.2.2.2 envGood 3 rfl rfl).2.2,
   c6_amended_stop_stopped_release.2.1 envGood stRunning rfl rfl⟩

/-- C7: tier rendering is deterministic — equal (event, tier) inputs render
equal outputs — and the RAW tier returns exactly the record's raw text. -/
theorem c7_render_deterministic_raw :
    (∀ (p q : PacketData) (t u : ExplanationTier),
      p = q → t = u → getExplanation p t = getExplanation q u) ∧
    (∀ p : PacketData, getExplanation p ExplanationTier.RAW = p.raw_output) :=
  ⟨fun p q t u hp ht => by rw [hp, ht], fun p => rfl⟩

/-- C7 witness at a concrete packet. -/
theorem c7_witness :
    getExplanation pkt0 ExplanationTier.NOVICE = getExplanation pkt0 ExplanationTier.NOVICE ∧
    getExplanation pkt0 ExplanationTier.RAW = pkt0.raw_output :=
  ⟨c7_render_deterministic_raw.1 pkt0 pkt0 ExplanationTier.NOVICE ExplanationTier.NOVICE rfl rfl,
   c7_render_deterministic_raw.2 pkt0⟩

/-- C8: tier rendering is total — every (event, tier) pair renders one of the
defined explanation strings, with RAW and SENTINEL falling back to the raw
text — and an event with a missing destination port degrades to the generic
novice explanation instead of erroring. -/
theorem c8_render_total_degrades (p : PacketData) (t : ExplanationTier) :
    (getExplanation p t = p.raw_output ∨
     getExplanation p t = noviceExplanation p ∨
     getExplanation p t = apprenticeExplanation p ∨
     getExplanation p t = guardianExplanation p) ∧
    (p.dst_port = none →
      getExplanation p ExplanationTier.NOVICE = "Network connection to " ++ p.dst_ip) := by
  constructor
  · cases t <;> simp [getExplanation]
  · intro h
    simp [getExplanation, noviceExplanation, h]

/-- C8 witness: the degraded record renders the generic novice text. -/
theorem c8_witness :
    pktUnknown.dst_port = none ∧
    getExplanation pktUnknown ExplanationTier.NOVICE = "Network connection to 10.0.0.9" :=
  ⟨rfl, ((c8_render_total_degrades pktUnknown ExplanationTier.NOVICE).2 rfl).trans (by decide)⟩

/-- C9: `parseNetworkData` always yields source TCPDUMP, type
NETWORK_CONNECTION, severity INFO (as `determineSeverity` returns INFO for
every string) and empty metadata; only id, timestamp and rawData come from
the inputs. -/
theorem c9_parse_network_data_constant_fields (id : String) (ts : Nat) (data : String) :
    parseNetworkData id ts data =
      { id := id, timestamp := ts, source := SecurityEventSource.TCPDUMP,
        type := SecurityEventType.NETWORK_CONNECTION,
        severity := SecurityEventSeverity.INFO, rawData := data, metadata := [] } ∧
    determineSeverity data = SecurityEventSeverity.INFO :=
  ⟨rfl, rfl⟩

/-- C10: `analyzeSecurityEvent` returns empty relatedEvents and
learningOpportunities and a complexityLevel equal to the profile's
expertiseLevel, whatever the context window holds; there is no per-request
tier parameter in its signature. -/
theorem c10_analysis_stub_result (profile : UserProfile) (w : List SecurityEvent)
    (e : SecurityEvent) :
    (analyzeSecurityEvent profile w e).1.relatedEvents = [] ∧
    (analyzeSecurityEvent profile w e).1.learningOpportunities = [] ∧
    (analyzeSecurityEvent profile w e).1.complexityLevel = profile.expertiseLevel :=
  ⟨rfl, rfl, rfl⟩

end Domai
